/-
  Verification of the evm-rule-engine core against its specification.

  Shallow embedding of the TypeScript sources:
    - src/types.ts          : RuleResult, RuleDefinition, BuiltRule, Network, EngineConfig
    - src/utils.ts          : getProviderByChainId
    - src/rules.ts          : the nine rule factories and createRulesFromDefinitions
    - src/validator.ts      : zod schemas (modelled as boolean checks)
    - src/EVMRuleEngine.ts  : constructor, addRule(s), validateBuiltRule, evaluate,
                              getRuleDefinitions

  Modelling conventions:
    - JavaScript promise rejection / thrown exceptions are modelled by
      `Except String`; an async function that resolves is `.ok`, one that
      rejects is `.error msg`.
    - JavaScript dynamic values appearing in rule `params` objects are
      modelled by `JsVal` (strings, bigints, numbers, booleans, null,
      undefined, and flat arrays).  A params object is an association list
      of fields; a missing field reads as `undefined`, matching JS
      property access.
    - ethers providers are modelled as records of query functions
      (`getBalance`, `getCode`, `getTransactionCount`, ERC-20/NFT contract
      views, and a generic contract call); each returns `Except String _`
      so that RPC failures are expressible.
    - BigInt/string comparison follows the ECMAScript semantics: strict
      equality (`===`) between a bigint and a string is always false;
      relational operators convert the string with StringToBigInt
      (modelled here on decimal literals, the only form the engine
      produces).
-/
import Mathlib

namespace EvmRuleEngine

/-- Primitive JavaScript values that occur in rule params. -/
inductive JsPrim where
  | str : String → JsPrim
  | big : Int → JsPrim
  | num : Int → JsPrim
  | boolv : Bool → JsPrim
  | nullv : JsPrim
  | undef : JsPrim
deriving DecidableEq, Repr

/-- A JavaScript value in a params object: a primitive or a flat array
(arrays only occur as the opaque `abi` field of callContract params). -/
inductive JsVal where
  | prim : JsPrim → JsVal
  | arr : List JsPrim → JsVal
deriving DecidableEq, Repr

/-- A JS object, as used for rule `params`: association list of fields. -/
abbrev Obj := List (String × JsVal)

/-- JS property access: a missing field reads as `undefined`. -/
def getField (o : Obj) (k : String) : JsVal :=
  (o.lookup k).getD (.prim .undef)

/-- `x === undefined || x === null`. -/
def isUndefOrNull : JsVal → Bool
  | .prim .undef => true
  | .prim .nullv => true
  | _ => false

/-- `['eq', 'gt', 'gte', 'lt', 'lte'].includes(x)` — `includes` uses strict
equality, so only string values can match. -/
def validCompareType : JsVal → Bool
  | .prim (.str s) => s == "eq" || s == "gt" || s == "gte" || s == "lt" || s == "lte"
  | _ => false

/-- String conversion as performed by template literals and `.toString()`.
Call sites in the embedded code only reach this after guarding against
`undefined`/`null` where the source would throw. -/
def jsToString : JsVal → String
  | .prim (.str s) => s
  | .prim (.big b) => toString b
  | .prim (.num n) => toString n
  | .prim (.boolv b) => if b then "true" else "false"
  | .prim .nullv => "null"
  | .prim .undef => "undefined"
  | .arr _ => "[array]"

/-- `typeof` for our value model. -/
def jsTypeof : JsVal → String
  | .prim (.str _) => "string"
  | .prim (.big _) => "bigint"
  | .prim (.num _) => "number"
  | .prim (.boolv _) => "boolean"
  | .prim .nullv => "object"
  | .prim .undef => "undefined"
  | .arr _ => "object"

/-- Whitespace characters stripped by StringToBigInt. -/
def isSpaceChar (c : Char) : Bool :=
  c == ' ' || c == '\t' || c == '\n' || c == '\r'

/-- Decimal digit run: `none` when empty or a non-digit occurs. -/
def parseDigitsAux : List Char → Nat → Option Nat
  | [], acc => some acc
  | c :: cs, acc =>
    if 48 ≤ c.toNat && c.toNat ≤ 57 then
      parseDigitsAux cs (acc * 10 + (c.toNat - 48))
    else none

/-- A non-empty decimal digit run. -/
def parseDigits : List Char → Option Nat
  | [] => none
  | cs => parseDigitsAux cs 0

/-- ECMAScript StringToBigInt, modelled on decimal integer literals —
the only shape the engine itself produces via
`BigInt.prototype.toString`.  Whitespace-only input denotes `0n`;
non-numeric input yields `none` (JS: undefined, making relational
comparisons false). -/
def jsStringToBigInt (s : String) : Option Int :=
  let cs := ((s.data.dropWhile isSpaceChar).reverse.dropWhile isSpaceChar).reverse
  match cs with
  | [] => some 0
  | '-' :: rest => (parseDigits rest).map (fun n => -(n : Int))
  | '+' :: rest => (parseDigits rest).map (fun n => (n : Int))
  | _ => (parseDigits cs).map (fun n => (n : Int))

/-- Strict equality `a === v` where `a` is a bigint: true only when `v`
is a bigint with the same value (JS `===` across types is false). -/
def jsStrictEqBig (a : Int) (v : JsVal) : Bool :=
  match v with
  | .prim (.big b) => a == b
  | _ => false

/-- A relational comparison `cmp a v` where `a` is a bigint and `v` an
arbitrary value, following the ECMAScript abstract relational
comparison: bigints compare directly, strings via StringToBigInt
(false when conversion fails), numbers/booleans via their numeric
value, anything else is NaN-like and compares false. -/
def jsRel (cmp : Int → Int → Bool) (a : Int) (v : JsVal) : Bool :=
  match v with
  | .prim (.big b) => cmp a b
  | .prim (.num n) => cmp a n
  | .prim (.str s) =>
    match jsStringToBigInt s with
    | some b => cmp a b
    | none => false
  | .prim (.boolv b) => cmp a (if b then 1 else 0)
  | _ => false

/-- Explicit `BigInt(x)` conversion (used by callContract on
`requiredResult`); throws on values that cannot be converted. -/
def jsToBigIntExplicit : JsVal → Except String Int
  | .prim (.big b) => .ok b
  | .prim (.num n) => .ok n
  | .prim (.boolv b) => .ok (if b then 1 else 0)
  | .prim (.str s) =>
    match jsStringToBigInt s with
    | some b => .ok b
    | none => .error ("Cannot convert " ++ s ++ " to a BigInt")
  | v => .error ("Cannot convert " ++ jsToString v ++ " to a BigInt")

/-- `x.length === 0` as tested by the callContract factory on `abi`:
real length check for arrays and strings; other values have no
`length` property (`undefined === 0` is false). -/
def jsHasLengthZero : JsVal → Bool
  | .arr xs => xs.isEmpty
  | .prim (.str s) => s.isEmpty
  | _ => false

/-- The `switch (params.compareType)` block shared verbatim by the
walletBalance / contractBalance / erc20Balance / numTransactions rule
bodies: `balance` is the observed on-chain bigint, `value` the
configured comparand (a bigint when built programmatically, a decimal
string when reconstructed from JSON). -/
def compareSwitch (compareType : JsVal) (balance : Int) (value : JsVal) :
    Except String Bool :=
  match compareType with
  | .prim (.str "eq") => .ok (jsStrictEqBig balance value)
  | .prim (.str "gt") => .ok (jsRel (fun a b => decide (a > b)) balance value)
  | .prim (.str "gte") => .ok (jsRel (fun a b => decide (a ≥ b)) balance value)
  | .prim (.str "lt") => .ok (jsRel (fun a b => decide (a < b)) balance value)
  | .prim (.str "lte") => .ok (jsRel (fun a b => decide (a ≤ b)) balance value)
  | other => .error ("Unsupported compareType: " ++ jsToString other)

/-- src/types.ts `RuleResult`: `error` is `none` when the JS object has
no `error` property. -/
structure RuleResult where
  name : String
  success : Bool
  error : Option String := none
deriving DecidableEq, Repr

/-- src/types.ts `RuleDefinition`. -/
structure RuleDefinition where
  type : String
  chainId : String
  params : Obj
deriving DecidableEq, Repr

/-- A rule predicate `(address?: string) => Promise<RuleResult>`:
`none` models a missing (`undefined`/`null`) address argument and
`.error` a rejected promise. -/
def RuleFn := Option String → Except String RuleResult

/-- src/types.ts `BuiltRule`. -/
structure BuiltRule where
  rule : RuleFn
  definition : RuleDefinition

/-- An ethers provider, reduced to the query surface the rules use.
Contract views carry the target contract address as first argument. -/
structure Provider where
  getBalance : String → Except String Int
  getCode : String → Except String String
  getTransactionCount : String → Except String Int
  balanceOf : String → String → Except String Int
  ownerOf : String → JsVal → Except String String
  callFn : String → String → List JsVal → Except String JsVal

/-- src/types.ts `Network`. -/
structure Network where
  provider : Provider
  chainId : String

/-- src/utils.ts `getProviderByChainId`: first network with a matching
chain id. -/
def getProviderByChainId (networks : List Network) (chainId : String) :
    Option Provider :=
  (networks.find? (fun n => n.chainId == chainId)).map (fun n => n.provider)

/-- The `const provider = ...; if (provider === undefined) throw` prologue
shared by every rule body. -/
def providerOrThrow (networks : List Network) (chainId : String) :
    Except String Provider :=
  match getProviderByChainId networks chainId with
  | some p => .ok p
  | none => .error ("No provider found for chainId: " ++ chainId)

/-- The `try { ... return { name, success } } catch (err) { return
{ name, success: false, error: err.message } }` wrapper shared by every
rule body. -/
def runCatch (ruleName : String) (body : Except String Bool) : RuleResult :=
  match body with
  | .ok success => { name := ruleName, success := success, error := none }
  | .error m => { name := ruleName, success := false, error := some m }

/-- Rendering of the optional address argument inside template literals
(only observable in rule names when the address is present). -/
def optAddrToString : Option String → String
  | none => "undefined"
  | some s => s

/-- src/rules.ts `walletBalance`: the predicate body. The address guard
sits before the try block, so a missing address rejects the promise. -/
def walletBalanceRuleFn (networks : List Network) (chainId : String)
    (value compareType : JsVal) : RuleFn := fun address =>
  let ruleName := "Wallet balance " ++ jsToString compareType ++ " " ++ jsToString value
  match address with
  | none => .error "`address` is required"
  | some s =>
    if s = "" then .error "`address` is required"
    else .ok (runCatch ruleName (do
      let provider ← providerOrThrow networks chainId
      let balance ← provider.getBalance s
      compareSwitch compareType balance value))

/-- src/rules.ts `walletBalance`: the factory. Eager param validation,
then the built rule; the exported definition stringifies `value`. -/
def walletBalance (networks : List Network) (chainId : String) (ps : Obj) :
    Except String BuiltRule :=
  let value := getField ps "value"
  let compareType := getField ps "compareType"
  if isUndefOrNull value then .error "`value` is required"
  else if !(validCompareType compareType) then
    .error "`compareType` is required and must be one of eq, gt, gte, lt, lte"
  else .ok {
    rule := walletBalanceRuleFn networks chainId value compareType
    definition := {
      type := "walletBalance"
      chainId := chainId
      params := [("value", .prim (.str (jsToString value))),
                 ("compareType", compareType)] } }

/-- src/rules.ts `contractBalance`: the predicate takes no address
argument and reads the configured contract address instead. -/
def contractBalanceRuleFn (networks : List Network) (chainId : String)
    (contractAddress value compareType : JsVal) : RuleFn := fun _ =>
  let ruleName := "Contract balance " ++ jsToString compareType ++ " " ++
    jsToString value ++ " at " ++ jsToString contractAddress
  .ok (runCatch ruleName (do
    let provider ← providerOrThrow networks chainId
    let balance ← provider.getBalance (jsToString contractAddress)
    compareSwitch compareType balance value))

/-- src/rules.ts `contractBalance`: the factory. -/
def contractBalance (networks : List Network) (chainId : String) (ps : Obj) :
    Except String BuiltRule :=
  let contractAddress := getField ps "contractAddress"
  let value := getField ps "value"
  let compareType := getField ps "compareType"
  if isUndefOrNull contractAddress then .error "`contractAddress` is required"
  else if isUndefOrNull value then .error "`value` is required"
  else if !(validCompareType compareType) then
    .error "`compareType` is required and must be one of eq, gt, gte, lt, lte"
  else .ok {
    rule := contractBalanceRuleFn networks chainId contractAddress value compareType
    definition := {
      type := "contractBalance"
      chainId := chainId
      params := [("contractAddress", contractAddress),
                 ("value", .prim (.str (jsToString value))),
                 ("compareType", compareType)] } }

/-- src/rules.ts `erc20Balance`: the predicate body (ERC-20 `balanceOf`
view on the configured token contract). -/
def erc20BalanceRuleFn (networks : List Network) (chainId : String)
    (tokenAddress value compareType : JsVal) : RuleFn := fun address =>
  let ruleName := "ERC20 balance " ++ jsToString compareType ++ " " ++
    jsToString value ++ " (token: " ++ jsToString tokenAddress ++ ")"
  match address with
  | none => .error "`address` is required"
  | some s =>
    if s = "" then .error "`address` is required"
    else .ok (runCatch ruleName (do
      let provider ← providerOrThrow networks chainId
      let balance ← provider.balanceOf (jsToString tokenAddress) s
      compareSwitch compareType balance value))

/-- src/rules.ts `erc20Balance`: the factory. -/
def erc20Balance (networks : List Network) (chainId : String) (ps : Obj) :
    Except String BuiltRule :=
  let tokenAddress := getField ps "tokenAddress"
  let value := getField ps "value"
  let compareType := getField ps "compareType"
  if isUndefOrNull tokenAddress then .error "`tokenAddress` is required"
  else if isUndefOrNull value then .error "`value` is required"
  else if !(validCompareType compareType) then
    .error "`compareType` is required and must be one of eq, gt, gte, lt, lte"
  else .ok {
    rule := erc20BalanceRuleFn networks chainId tokenAddress value compareType
    definition := {
      type := "erc20Balance"
      chainId := chainId
      params := [("tokenAddress", tokenAddress),
                 ("value", .prim (.str (jsToString value))),
                 ("compareType", compareType)] } }

/-- src/rules.ts `numTransactions`: the predicate body (nonce lookup). -/
def numTransactionsRuleFn (networks : List Network) (chainId : String)
    (value compareType : JsVal) : RuleFn := fun address =>
  let ruleName := "Number of transactions " ++ jsToString compareType ++ " " ++
    jsToString value
  match address with
  | none => .error "`address` is required"
  | some s =>
    if s = "" then .error "`address` is required"
    else .ok (runCatch ruleName (do
      let provider ← providerOrThrow networks chainId
      let txCount ← provider.getTransactionCount s
      compareSwitch compareType txCount value))

/-- src/rules.ts `numTransactions`: the factory. -/
def numTransactions (networks : List Network) (chainId : String) (ps : Obj) :
    Except String BuiltRule :=
  let value := getField ps "value"
  let compareType := getField ps "compareType"
  if isUndefOrNull value then .error "`value` is required"
  else if !(validCompareType compareType) then
    .error "`compareType` is required and must be one of eq, gt, gte, lt, lte"
  else .ok {
    rule := numTransactionsRuleFn networks chainId value compareType
    definition := {
      type := "numTransactions"
      chainId := chainId
      params := [("value", .prim (.str (jsToString value))),
                 ("compareType", compareType)] } }

/-- src/rules.ts `hasNFT`: the predicate body (ERC-721 `balanceOf ≥ 1`). -/
def hasNFTRuleFn (networks : List Network) (chainId : String)
    (nftAddress : JsVal) : RuleFn := fun address =>
  let ruleName := "Address has at least 1 NFT from " ++ jsToString nftAddress
  match address with
  | none => .error "`address` is required"
  | some s =>
    if s = "" then .error "`address` is required"
    else .ok (runCatch ruleName (do
      let provider ← providerOrThrow networks chainId
      let balance ← provider.balanceOf (jsToString nftAddress) s
      Except.ok (decide (balance ≥ 1))))

/-- src/rules.ts `hasNFT`: the factory. -/
def hasNFT (networks : List Network) (chainId : String) (ps : Obj) :
    Except String BuiltRule :=
  let nftAddress := getField ps "nftAddress"
  if isUndefOrNull nftAddress then .error "`nftAddress` is required"
  else .ok {
    rule := hasNFTRuleFn networks chainId nftAddress
    definition := {
      type := "hasNFT"
      chainId := chainId
      params := [("nftAddress", nftAddress)] } }

/-- src/rules.ts `hasNFTTokenId`: the predicate body (`ownerOf` compared
case-insensitively with the queried address). -/
def hasNFTTokenIdRuleFn (networks : List Network) (chainId : String)
    (nftAddress tokenId : JsVal) : RuleFn := fun address =>
  let ruleName := "Address has NFT " ++ jsToString nftAddress ++ " #" ++
    jsToString tokenId
  match address with
  | none => .error "`address` is required"
  | some s =>
    if s = "" then .error "`address` is required"
    else .ok (runCatch ruleName (do
      let provider ← providerOrThrow networks chainId
      let actualOwner ← provider.ownerOf (jsToString nftAddress) tokenId
      Except.ok (actualOwner.toLower == s.toLower)))

/-- src/rules.ts `hasNFTTokenId`: the factory; the exported definition
stringifies `tokenId`. -/
def hasNFTTokenId (networks : List Network) (chainId : String) (ps : Obj) :
    Except String BuiltRule :=
  let nftAddress := getField ps "nftAddress"
  let tokenId := getField ps "tokenId"
  if isUndefOrNull nftAddress then .error "`nftAddress` is required"
  else if isUndefOrNull tokenId then .error "`tokenId` is required"
  else .ok {
    rule := hasNFTTokenIdRuleFn networks chainId nftAddress tokenId
    definition := {
      type := "hasNFTTokenId"
      chainId := chainId
      params := [("nftAddress", nftAddress),
                 ("tokenId", .prim (.str (jsToString tokenId)))] } }

/-- src/rules.ts `addressIsContract`: the predicate body; success iff the
retrieved code payload is not the empty payload `"0x"`. -/
def addressIsContractRuleFn (networks : List Network) (chainId : String) :
    RuleFn := fun address =>
  let ruleName := "Address is contract: " ++ optAddrToString address
  match address with
  | none => .error "`address` is required"
  | some s =>
    if s = "" then .error "`address` is required"
    else .ok (runCatch ruleName (do
      let provider ← providerOrThrow networks chainId
      let code ← provider.getCode s
      Except.ok (!(code == "0x"))))

/-- src/rules.ts `addressIsContract`: the factory (no param validation;
`params` is stored in the definition as passed). -/
def addressIsContract (networks : List Network) (chainId : String) (ps : Obj) :
    Except String BuiltRule :=
  .ok {
    rule := addressIsContractRuleFn networks chainId
    definition := {
      type := "addressIsContract"
      chainId := chainId
      params := ps } }

/-- src/rules.ts `addressIsEOA`: the predicate body; success iff the
retrieved code payload is the empty payload `"0x"`. -/
def addressIsEOARuleFn (networks : List Network) (chainId : String) :
    RuleFn := fun address =>
  let ruleName := "Address is EOA: " ++ optAddrToString address
  match address with
  | none => .error "`address` is required"
  | some s =>
    if s = "" then .error "`address` is required"
    else .ok (runCatch ruleName (do
      let provider ← providerOrThrow networks chainId
      let code ← provider.getCode s
      Except.ok (code == "0x")))

/-- src/rules.ts `addressIsEOA`: the factory. -/
def addressIsEOA (networks : List Network) (chainId : String) (ps : Obj) :
    Except String BuiltRule :=
  .ok {
    rule := addressIsEOARuleFn networks chainId
    definition := {
      type := "addressIsEOA"
      chainId := chainId
      params := ps } }

/-- The numeric branch of callContract: both operands already bigints. -/
def compareIntSwitch (compareType : JsVal) (a b : Int) : Except String Bool :=
  match compareType with
  | .prim (.str "eq") => .ok (a == b)
  | .prim (.str "gt") => .ok (decide (a > b))
  | .prim (.str "gte") => .ok (decide (a ≥ b))
  | .prim (.str "lt") => .ok (decide (a < b))
  | .prim (.str "lte") => .ok (decide (a ≤ b))
  | other => .error ("Unsupported compareType: " ++ jsToString other)

/-- src/rules.ts `callContract`: the predicate body. The whole body sits
inside the try block (no address guard); the call result is dispatched
on its dynamic type. -/
def callContractRuleFn (networks : List Network) (chainId : String)
    (contractAddress functionName requiredResult compareType : JsVal) :
    RuleFn := fun address =>
  let ruleName := "callContract " ++ jsToString contractAddress ++ " " ++
    jsToString functionName
  .ok (runCatch ruleName (do
    let provider ← providerOrThrow networks chainId
    let rawResult ← provider.callFn (jsToString contractAddress)
      (jsToString functionName)
      [match address with
       | none => .prim .undef
       | some s => .prim (.str s)]
    match rawResult with
    | .prim (.boolv b) =>
      match requiredResult with
      | .prim (.boolv rb) =>
        if compareType == .prim (.str "eq") then Except.ok (b == rb)
        else .error ("compareType \x27" ++ jsToString compareType ++
          "\x27 not supported for boolean comparison.")
      | _ => .error "Contract returned boolean but \x27requiredResult\x27 is not boolean."
    | .prim (.str s) =>
      match requiredResult with
      | .prim (.str rs) =>
        if compareType == .prim (.str "eq") then Except.ok (s == rs)
        else .error ("compareType \x27" ++ jsToString compareType ++
          "\x27 not supported for string comparison.")
      | _ => .error "Contract returned string but \x27requiredResult\x27 is not string."
    | .prim (.big n) => do
      let req ← jsToBigIntExplicit requiredResult
      compareIntSwitch compareType n req
    | .prim (.num n) => do
      let req ← jsToBigIntExplicit requiredResult
      compareIntSwitch compareType n req
    | other =>
      .error ("Unsupported return type from contract function: " ++ jsTypeof other)))

/-- src/rules.ts `callContract`: the factory. Note the exported
definition omits `compareType` (the source drops it when building
`definition.params`). -/
def callContract (networks : List Network) (chainId : String) (ps : Obj) :
    Except String BuiltRule :=
  let contractAddress := getField ps "contractAddress"
  let functionName := getField ps "functionName"
  let abi := getField ps "abi"
  let requiredResult := getField ps "requiredResult"
  let compareType := getField ps "compareType"
  if isUndefOrNull contractAddress then .error "`contractAddress` is required"
  else if isUndefOrNull functionName then .error "`functionName` is required"
  else if isUndefOrNull abi || jsHasLengthZero abi then .error "`abi` is required"
  else .ok {
    rule := callContractRuleFn networks chainId contractAddress functionName
      requiredResult compareType
    definition := {
      type := "callContract"
      chainId := chainId
      params := [("contractAddress", contractAddress),
                 ("functionName", functionName),
                 ("abi", abi),
                 ("requiredResult", requiredResult)] } }

/-- src/rules.ts: the `ruleFactories` lookup table keyed by type tag.
`none` models `ruleFactories[type] === undefined`. -/
def ruleFactoryApply (t : String) (networks : List Network) (chainId : String)
    (ps : Obj) : Option (Except String BuiltRule) :=
  match t with
  | "walletBalance" => some (walletBalance networks chainId ps)
  | "contractBalance" => some (contractBalance networks chainId ps)
  | "erc20Balance" => some (erc20Balance networks chainId ps)
  | "numTransactions" => some (numTransactions networks chainId ps)
  | "hasNFT" => some (hasNFT networks chainId ps)
  | "hasNFTTokenId" => some (hasNFTTokenId networks chainId ps)
  | "addressIsContract" => some (addressIsContract networks chainId ps)
  | "addressIsEOA" => some (addressIsEOA networks chainId ps)
  | "callContract" => some (callContract networks chainId ps)
  | _ => none

/-- src/rules.ts `createRulesFromDefinitions`, per definition: check the
chain id against the networks, look up the factory by type tag, run it.
(The `type === undefined` / `chainId === undefined` guards are
unrepresentable here since both fields are total strings in the model;
the switch statement re-listing the nine known tags is subsumed by the
factory lookup, whose default throws the same way.) -/
def createRuleFromDefinition (networks : List Network) (d : RuleDefinition) :
    Except String BuiltRule :=
  if (getProviderByChainId networks d.chainId).isNone then
    .error ("Chain ID " ++ d.chainId ++ " not found in networks")
  else
    match ruleFactoryApply d.type networks d.chainId d.params with
    | none => .error ("Unknown rule type: \x22" ++ d.type ++ "\x22")
    | some r => r

/-- src/rules.ts `createRulesFromDefinitions`: `definitions.map(...)`,
where a throw from any element aborts the whole call. -/
def createRulesFromDefinitions (networks : List Network)
    (ds : List RuleDefinition) : Except String (List BuiltRule) :=
  ds.mapM (createRuleFromDefinition networks)

/-- src/EVMRuleEngine.ts engine state: the configured networks and the
accumulated rule list. -/
structure EVMRuleEngine where
  networks : List Network
  rules : List BuiltRule

/-- src/EVMRuleEngine.ts `hasNetwork`. -/
def hasNetwork (networks : List Network) (chainId : String) : Bool :=
  networks.any (fun n => n.chainId == chainId)

/-- src/validator.ts: the per-type params schemas of
`ruleDefinitionSchema` (zod discriminated union), as a boolean check.
`z.string()` on a field requires a string value, `compareTypeSchema`
one of the five comparator strings, `z.array(z.any())` an array;
`z.object(\x7b\x7d)` and `z.any()` accept anything.  An unknown type
tag fails the discriminated union. -/
def paramsSchemaCheck (t : String) (ps : Obj) : Bool :=
  match t with
  | "walletBalance" =>
    isStrVal (getField ps "value") && validCompareType (getField ps "compareType")
  | "contractBalance" =>
    isStrVal (getField ps "contractAddress") && isStrVal (getField ps "value") &&
      validCompareType (getField ps "compareType")
  | "erc20Balance" =>
    isStrVal (getField ps "tokenAddress") && isStrVal (getField ps "value") &&
      validCompareType (getField ps "compareType")
  | "numTransactions" =>
    isStrVal (getField ps "value") && validCompareType (getField ps "compareType")
  | "hasNFT" => isStrVal (getField ps "nftAddress")
  | "hasNFTTokenId" =>
    isStrVal (getField ps "nftAddress") && isStrVal (getField ps "tokenId")
  | "addressIsContract" => true
  | "addressIsEOA" => true
  | "callContract" =>
    isStrVal (getField ps "contractAddress") &&
      isStrVal (getField ps "functionName") &&
      isArrVal (getField ps "abi") &&
      validCompareType (getField ps "compareType")
  | "custom" => true
  | _ => false
where
  isStrVal : JsVal → Bool
    | .prim (.str _) => true
    | _ => false
  isArrVal : JsVal → Bool
    | .arr _ => true
    | _ => false

/-- src/validator.ts `builtRuleSchema` applied to a BuiltRule: the
`rule` field is always a function in the model, so only the definition
schema is operative. -/
def builtRuleSchemaCheck (br : BuiltRule) : Bool :=
  paramsSchemaCheck br.definition.type br.definition.params

/-- src/EVMRuleEngine.ts `validateBuiltRule` (schema parse, then network
membership).  The zod failure message is an aggregate of field
messages; it is abstracted to a fixed string here, since no property
depends on its text. -/
def validateBuiltRule (e : EVMRuleEngine) (r : BuiltRule) :
    Except String Unit :=
  if !(builtRuleSchemaCheck r) then
    .error "invalid rule - schema validation failed"
  else if !(hasNetwork e.networks r.definition.chainId) then
    .error ("invalid rule - network " ++ r.definition.chainId ++ " not configured")
  else .ok ()

/-- The `rules.forEach(r => this.validateBuiltRule(r))` loop: stops at
the first validation exception. -/
def runValidations (e : EVMRuleEngine) : List BuiltRule → Except String Unit
  | [] => .ok ()
  | r :: rs =>
    match validateBuiltRule e r with
    | .error m => .error m
    | .ok _ => runValidations e rs

/-- src/EVMRuleEngine.ts `addRules`: validate every rule of the batch
first, then `push(...rules)`.  Modelled with explicit state passing:
the returned engine is unchanged when the loop throws, because the
push is only reached after all validations pass. -/
def addRules (e : EVMRuleEngine) (batch : List BuiltRule) :
    Except String Unit × EVMRuleEngine :=
  match runValidations e batch with
  | .error m => (.error m, e)
  | .ok _ => (.ok (), { e with rules := e.rules ++ batch })

/-- src/EVMRuleEngine.ts `addRule`. -/
def addRule (e : EVMRuleEngine) (r : BuiltRule) :
    Except String Unit × EVMRuleEngine :=
  match validateBuiltRule e r with
  | .error m => (.error m, e)
  | .ok _ => (.ok (), { e with rules := e.rules ++ [r] })

/-- src/EVMRuleEngine.ts constructor, on the list-of-rules path
(`rules: BuiltRule[] = []`): reject an undefined or empty networks
array, store it, then `addRules(rules)`; a validation throw escapes
the constructor, so no engine is produced. -/
def engineCreate (config : Option (List Network)) (rules : List BuiltRule) :
    Except String EVMRuleEngine :=
  match config with
  | none => .error "No networks configured"
  | some ns =>
    if ns.length = 0 then .error "No networks configured"
    else
      match addRules { networks := ns, rules := [] } rules with
      | (.error m, _) => .error m
      | (.ok _, e) => .ok e

/-- One slot of the `this.rules.map(async ({ rule }, index) => ...)`
body of `evaluate`: run the predicate; a rejection is caught and
becomes a failed RuleResult at that index. -/
def runRule (address : String) (index : Nat) (br : BuiltRule) : RuleResult :=
  match br.rule (some address) with
  | .ok r => r
  | .error m =>
    { name := "Rule #" ++ toString index, success := false, error := some m }

/-- src/types.ts `EvaluateResult`. -/
structure EvaluateResult where
  ruleResults : List RuleResult
  result : Bool
deriving DecidableEq, Repr

/-- src/EVMRuleEngine.ts `evaluate`: every rule is executed (indexed, in
input order — `Promise.all` keeps positional order regardless of
completion order), and the verdict is `results.every(res => res.success)`.
The function is total: per-rule rejections are absorbed by the catch,
so `evaluate` itself never rejects. -/
def evaluate (e : EVMRuleEngine) (address : String) : EvaluateResult :=
  let results := e.rules.enum.map (fun p => runRule address p.1 p.2)
  { ruleResults := results, result := results.all (fun res => res.success) }

/-- src/EVMRuleEngine.ts `getRuleDefinitions`: re-pack `type`,
`chainId`, `params` of each stored definition, in insertion order. -/
def getRuleDefinitions (e : EVMRuleEngine) : List RuleDefinition :=
  e.rules.map (fun br =>
    { type := br.definition.type
      chainId := br.definition.chainId
      params := br.definition.params })

/-! Concrete fixtures used by witnesses and counterexamples. -/

/-- A provider whose balance queries all return `bal` and whose other
queries fail. -/
def balProvider (bal : Int) : Provider :=
  { getBalance := fun _ => .ok bal
    getCode := fun _ => .error "getCode unavailable"
    getTransactionCount := fun _ => .ok 0
    balanceOf := fun _ _ => .ok 0
    ownerOf := fun _ _ => .error "ownerOf unavailable"
    callFn := fun _ _ _ => .error "call unavailable" }

/-- A provider whose code queries all return `code`. -/
def codeProvider (code : String) : Provider :=
  { getBalance := fun _ => .ok 0
    getCode := fun _ => .ok code
    getTransactionCount := fun _ => .ok 0
    balanceOf := fun _ _ => .ok 0
    ownerOf := fun _ _ => .error "ownerOf unavailable"
    callFn := fun _ _ _ => .error "call unavailable" }

/-- A caller-supplied rule whose predicate always rejects with "boom". -/
def boomRule : BuiltRule :=
  { rule := fun _ => .error "boom"
    definition := { type := "custom", chainId := "31337", params := [] } }

/-- A caller-supplied rule whose predicate always succeeds. -/
def passingRule : BuiltRule :=
  { rule := fun _ => .ok { name := "always passes", success := true, error := none }
    definition := { type := "custom", chainId := "31337", params := [] } }

/-- A two-rule engine whose second rule throws. -/
def faultEngine : EVMRuleEngine :=
  { networks := [{ provider := balProvider 0, chainId := "31337" }]
    rules := [passingRule, boomRule] }

/-! Shared facts about `evaluate`, used by several claim theorems. -/

/-- The result list has one entry per rule. -/
theorem evaluate_ruleResults_length (e : EVMRuleEngine) (addr : String) :
    (evaluate e addr).ruleResults.length = e.rules.length := by
  simp [evaluate]

/-- The i-th result entry is the executed i-th rule. -/
theorem evaluate_ruleResults_getElem (e : EVMRuleEngine) (addr : String)
    (i : Nat) :
    (evaluate e addr).ruleResults[i]? = (e.rules[i]?).map (runRule addr i) := by
  show (e.rules.enum.map (fun p => runRule addr p.1 p.2))[i]? =
    (e.rules[i]?).map (runRule addr i)
  rw [List.getElem?_map, List.getElem?_enum]
  cases e.rules[i]? <;> rfl

/-- The verdict is true exactly when every entry succeeded. -/
theorem evaluate_result_true_iff (e : EVMRuleEngine) (addr : String) :
    (evaluate e addr).result = true ↔
      ∀ r ∈ (evaluate e addr).ruleResults, r.success = true := by
  simp [evaluate, List.all_eq_true]

/-! Claim C1: the verdict is the conjunction of per-rule successes. -/

/-- C1: for every engine and address, `evaluate` returns a verdict equal
to the AND of `ruleResults[i].success`; with zero rules the verdict is
vacuously true, and for any rule list the verdict is true iff every
entry succeeded. -/
theorem evaluate_result_is_and_of_successes (e : EVMRuleEngine) (addr : String) :
    (evaluate e addr).result =
      (evaluate e addr).ruleResults.all (fun r => r.success)
    ∧ (evaluate { networks := e.networks, rules := [] } addr).result = true
    ∧ ((evaluate e addr).result = true ↔
        ∀ r ∈ (evaluate e addr).ruleResults, r.success = true) :=
  ⟨rfl, rfl, evaluate_result_true_iff e addr⟩

/-! Claim C8: results stay in input order, one per rule. -/

/-- C8: `ruleResults` has one entry per rule, and the i-th entry is the
outcome of the i-th rule as added; the embedding is the denotation of
`Promise.all`, which fixes positional order independently of
completion order. -/
theorem evaluate_preserves_rule_order (e : EVMRuleEngine) (addr : String) :
    (evaluate e addr).ruleResults.length = e.rules.length
    ∧ ∀ i : Nat, (evaluate e addr).ruleResults[i]? =
        (e.rules[i]?).map (runRule addr i) :=
  ⟨evaluate_ruleResults_length e addr, evaluate_ruleResults_getElem e addr⟩

/-! Claim C3: fault isolation of `evaluate`. -/

/-- C3: if the j-th rule's predicate rejects with message `m`,
`evaluate` still produces a full result (it is a total function — the
catch absorbs the rejection): the j-th entry is the synthesized
failure with `error = m`, the overall verdict is false, and every rule
whose own predicate resolved keeps its own result at its own
position. -/
theorem evaluate_fault_isolation (e : EVMRuleEngine) (addr : String) (j : Nat)
    (br : BuiltRule) (m : String)
    (hj : e.rules[j]? = some br) (hm : br.rule (some addr) = .error m) :
    (evaluate e addr).ruleResults[j]? =
      some { name := "Rule #" ++ toString j, success := false, error := some m }
    ∧ (evaluate e addr).result = false
    ∧ ∀ (i : Nat) (bri : BuiltRule) (r : RuleResult),
        e.rules[i]? = some bri → bri.rule (some addr) = .ok r →
        (evaluate e addr).ruleResults[i]? = some r := by
  have hget := evaluate_ruleResults_getElem e addr
  have hj2 : (evaluate e addr).ruleResults[j]? =
      some { name := "Rule #" ++ toString j, success := false, error := some m } := by
    rw [hget j, hj]
    simp [runRule, hm]
  refine ⟨hj2, ?_, ?_⟩
  · have hmem := List.getElem?_mem hj2
    by_contra hres
    rw [Bool.not_eq_false] at hres
    have hall := (evaluate_result_true_iff e addr).mp hres
    have := hall _ hmem
    simp at this
  · intro i bri r hi hr
    rw [hget i, hi]
    simp [runRule, hr]

/-- Witness for C3 at a concrete engine: two rules, the second throwing
"boom"; the second entry carries the error and the verdict is false. -/
theorem evaluate_fault_isolation_witness :
    (evaluate faultEngine "0xabc").ruleResults[1]? =
      some { name := "Rule #1", success := false, error := some "boom" }
    ∧ (evaluate faultEngine "0xabc").result = false :=
  ⟨(evaluate_fault_isolation faultEngine "0xabc" 1 boomRule "boom" rfl rfl).1,
   (evaluate_fault_isolation faultEngine "0xabc" 1 boomRule "boom" rfl rfl).2.1⟩

/-- Witness for C1 at a concrete engine. -/
theorem evaluate_result_is_and_witness :
    (evaluate faultEngine "0xabc").result =
      (evaluate faultEngine "0xabc").ruleResults.all (fun r => r.success)
    ∧ (evaluate { networks := faultEngine.networks, rules := [] } "0xabc").result
        = true :=
  ⟨(evaluate_result_is_and_of_successes faultEngine "0xabc").1,
   (evaluate_result_is_and_of_successes faultEngine "0xabc").2.1⟩

/-- Witness for C8 at a concrete engine. -/
theorem evaluate_preserves_rule_order_witness :
    (evaluate faultEngine "0xabc").ruleResults.length = faultEngine.rules.length
    ∧ (evaluate faultEngine "0xabc").ruleResults[0]? =
        (faultEngine.rules[0]?).map (runRule "0xabc" 0) :=
  ⟨(evaluate_preserves_rule_order faultEngine "0xabc").1,
   (evaluate_preserves_rule_order faultEngine "0xabc").2 0⟩

/-- Reduction of monadic bind on `Except` (successful step). -/
@[simp] theorem except_bind_ok {α β ε : Type} (a : α) (f : α → Except ε β) :
    (Except.ok a >>= f) = f a := rfl

/-- Reduction of monadic bind on `Except` (failing step). -/
@[simp] theorem except_bind_error {α β ε : Type} (m : ε) (f : α → Except ε β) :
    ((Except.error m : Except ε α) >>= f) = Except.error m := rfl

/-- Reduction of `Except.map` on a success. -/
@[simp] theorem except_map_ok {α β ε : Type} (f : α → β) (a : α) :
    (Except.ok a : Except ε α).map f = Except.ok (f a) := rfl

/-- Reduction of `Except.map` on a failure. -/
@[simp] theorem except_map_error {α β ε : Type} (f : α → β) (m : ε) :
    (Except.error m : Except ε α).map f = Except.error m := rfl

/-! Claim C6: network registry construction. -/

/-- Counterexample to C6: a configuration holding two networks with the
same chain id "1" is accepted by the constructor — duplicates are not
rejected at construction. -/
theorem engineCreate_accepts_duplicate_chainIds :
    ∃ e, engineCreate
      (some [{ provider := balProvider 0, chainId := "1" },
             { provider := balProvider 7, chainId := "1" }]) [] = .ok e :=
  ⟨_, rfl⟩

/-- C6 as amended: construction fails with "No networks configured"
when the networks list is undefined or empty; any non-empty list —
duplicate chain ids included — is accepted, and chain-id lookup
resolves to the first matching network (silent shadowing). -/
theorem engineCreate_networks_spec (rules0 : List BuiltRule)
    (ns : List Network) (p q : Provider) (c : String) (rest : List Network)
    (hns : ns ≠ []) :
    engineCreate none rules0 = .error "No networks configured"
    ∧ engineCreate (some []) rules0 = .error "No networks configured"
    ∧ (∃ e, engineCreate (some ns) [] = .ok e)
    ∧ getProviderByChainId
        ({ provider := p, chainId := c } :: { provider := q, chainId := c } :: rest) c
        = some p := by
  refine ⟨rfl, rfl, ?_, ?_⟩
  · cases ns with
    | nil => exact absurd rfl hns
    | cons n ns2 => exact ⟨_, rfl⟩
  · simp [getProviderByChainId]

/-- Witness for the amended C6 at concrete inputs. -/
theorem engineCreate_networks_spec_witness :
    engineCreate none [] = .error "No networks configured"
    ∧ engineCreate (some []) [] = .error "No networks configured"
    ∧ (∃ e, engineCreate (some [{ provider := balProvider 0, chainId := "1" }]) []
        = .ok e)
    ∧ getProviderByChainId
        [{ provider := balProvider 0, chainId := "1" },
         { provider := balProvider 7, chainId := "1" }] "1"
        = some (balProvider 0) := by
  have h := engineCreate_networks_spec []
    [{ provider := balProvider 0, chainId := "1" }]
    (balProvider 0) (balProvider 7) "1" [] (by simp)
  exact ⟨h.1, h.2.1, h.2.2.1, h.2.2.2⟩

/-! Claim C7: batch add is all-or-nothing. -/

/-- The forEach loop succeeds when every batch member validates. -/
theorem runValidations_ok_of_all (e : EVMRuleEngine) :
    ∀ batch : List BuiltRule,
      (∀ x ∈ batch, validateBuiltRule e x = .ok ()) →
      runValidations e batch = .ok () := by
  intro batch
  induction batch with
  | nil => intro _; rfl
  | cons r0 rs ih =>
    intro h
    have hr0 := h r0 (List.mem_cons_self r0 rs)
    simp only [runValidations, hr0]
    exact ih (fun x hx => h x (List.mem_cons_of_mem _ hx))

/-- The forEach loop throws when some batch member fails validation. -/
theorem runValidations_error_of_failure (e : EVMRuleEngine) (r : BuiltRule)
    (hfail : validateBuiltRule e r ≠ .ok ()) :
    ∀ batch : List BuiltRule, r ∈ batch →
      ∃ m, runValidations e batch = .error m := by
  intro batch
  induction batch with
  | nil => intro h; cases h
  | cons r0 rs ih =>
    intro hmem
    cases hv : validateBuiltRule e r0 with
    | error m => exact ⟨m, by simp only [runValidations, hv]⟩
    | ok u =>
      cases u
      rcases List.mem_cons.mp hmem with h | h
      · subst h; exact absurd hv hfail
      · rcases ih h with ⟨m, hm⟩
        exact ⟨m, by simp only [runValidations, hv, hm]⟩

/-- C7: `addRules` is atomic. If every rule of the batch validates, the
whole batch is appended in order; if any rule fails validation, the
call throws and the engine's rule list is exactly what it was before
(no prefix of the batch is appended), because all validations run
before the single push. -/
theorem addRules_atomic (e : EVMRuleEngine) (batch : List BuiltRule) :
    ((∀ r ∈ batch, validateBuiltRule e r = .ok ()) →
      addRules e batch = (.ok (), { e with rules := e.rules ++ batch }))
    ∧ ((∃ r ∈ batch, validateBuiltRule e r ≠ .ok ()) →
      ∃ m, addRules e batch = (.error m, e)) := by
  constructor
  · intro h
    simp only [addRules, runValidations_ok_of_all e batch h]
  · rintro ⟨r, hmem, hfail⟩
    rcases runValidations_error_of_failure e r hfail batch hmem with ⟨m, hm⟩
    exact ⟨m, by simp only [addRules, hm]⟩

/-- An empty fresh engine over chain "31337", for witnesses. -/
def emptyEngine : EVMRuleEngine :=
  { networks := [{ provider := balProvider 0, chainId := "31337" }]
    rules := [] }

/-- A caller-supplied rule naming an unconfigured chain "2". -/
def badNetRule : BuiltRule :=
  { rule := fun _ => .ok { name := "bad", success := true, error := none }
    definition := { type := "custom", chainId := "2", params := [] } }

/-- Witness for C7: a valid singleton batch is appended; a batch whose
second member names an unconfigured network throws and leaves the
engine untouched. -/
theorem addRules_atomic_witness :
    addRules emptyEngine [passingRule] =
      (.ok (), { emptyEngine with rules := emptyEngine.rules ++ [passingRule] })
    ∧ ∃ m, addRules emptyEngine [passingRule, badNetRule] = (.error m, emptyEngine) :=
  ⟨(addRules_atomic emptyEngine [passingRule]).1
      (fun r hr => by rcases List.mem_singleton.mp hr with rfl; rfl),
   (addRules_atomic emptyEngine [passingRule, badNetRule]).2
      ⟨badNetRule, by simp, fun h => nomatch h⟩⟩

/-! Claim C4: address-kind rules are complementary. -/

/-- C4: against the same retrieved code payload, `addressIsContract`
succeeds iff the payload is not `"0x"` and `addressIsEOA` succeeds iff
it is `"0x"`; the two successes are exclusive and exhaustive (XOR). -/
theorem addressKind_complementary (nets : List Network) (c : String)
    (p : Provider) (s code : String) (ps1 ps2 : Obj)
    (hp : getProviderByChainId nets c = some p)
    (hcode : p.getCode s = .ok code) (hs : ¬(s = "")) :
    (addressIsContract nets c ps1).map (fun br => br.rule (some s)) =
      .ok (.ok { name := "Address is contract: " ++ s,
                 success := !(code == "0x"), error := none })
    ∧ (addressIsEOA nets c ps2).map (fun br => br.rule (some s)) =
      .ok (.ok { name := "Address is EOA: " ++ s,
                 success := (code == "0x"), error := none })
    ∧ Bool.xor (!(code == "0x")) (code == "0x") = true := by
  refine ⟨?_, ?_, ?_⟩
  · simp [addressIsContract, addressIsContractRuleFn, optAddrToString, hs,
      providerOrThrow, hp, hcode, runCatch]
  · simp [addressIsEOA, addressIsEOARuleFn, optAddrToString, hs,
      providerOrThrow, hp, hcode, runCatch]
  · cases h0x : (code == "0x") <;> rfl

/-- Witness for C4 at a concrete registry: a provider reporting the
empty code payload "0x" makes the EOA rule succeed and the contract
rule fail. -/
theorem addressKind_complementary_witness :
    (addressIsContract [{ provider := codeProvider "0x", chainId := "1" }] "1" []).map
        (fun br => br.rule (some "0xabc")) =
      .ok (.ok { name := "Address is contract: 0xabc",
                 success := false, error := none })
    ∧ (addressIsEOA [{ provider := codeProvider "0x", chainId := "1" }] "1" []).map
        (fun br => br.rule (some "0xabc")) =
      .ok (.ok { name := "Address is EOA: 0xabc",
                 success := true, error := none }) := by
  have h := addressKind_complementary
    [{ provider := codeProvider "0x", chainId := "1" }] "1"
    (codeProvider "0x") "0xabc" "0x" [] [] rfl rfl (by simp)
  exact ⟨h.1, h.2.1⟩

/-! Claim C9: threshold boundary of a balance-at-least rule. -/

/-- Typed params of a `walletBalance` gte rule with bigint threshold `V`. -/
def wbGteParams (V : Int) : Obj :=
  [("value", .prim (.big V)), ("compareType", .prim (.str "gte"))]

/-- C9: a `walletBalance` rule with `compareType = "gte"` and bigint
threshold `V` succeeds when the observed balance is exactly `V` and
fails when it is `V - 1`. -/
theorem walletBalance_gte_threshold_boundary (V : Int) (addr : String)
    (hs : ¬(addr = "")) :
    (walletBalance [{ provider := balProvider V, chainId := "31337" }] "31337"
        (wbGteParams V)).map (fun br => br.rule (some addr)) =
      .ok (.ok { name := "Wallet balance gte " ++ toString V,
                 success := true, error := none })
    ∧ (walletBalance [{ provider := balProvider (V - 1), chainId := "31337" }] "31337"
        (wbGteParams V)).map (fun br => br.rule (some addr)) =
      .ok (.ok { name := "Wallet balance gte " ++ toString V,
                 success := false, error := none }) := by
  constructor
  · simp [walletBalance, wbGteParams, getField, List.lookup, Option.getD,
      isUndefOrNull, validCompareType, walletBalanceRuleFn, hs, providerOrThrow,
      getProviderByChainId, balProvider, runCatch, compareSwitch, jsRel, jsToString]
  · simp [walletBalance, wbGteParams, getField, List.lookup, Option.getD,
      isUndefOrNull, validCompareType, walletBalanceRuleFn, hs, providerOrThrow,
      getProviderByChainId, balProvider, runCatch, compareSwitch, jsRel, jsToString]

/-- Witness for C9 at `V = 10`, address "0xabc". -/
theorem walletBalance_gte_threshold_boundary_witness :
    (walletBalance [{ provider := balProvider 10, chainId := "31337" }] "31337"
        (wbGteParams 10)).map (fun br => br.rule (some "0xabc")) =
      .ok (.ok { name := "Wallet balance gte 10", success := true, error := none })
    ∧ (walletBalance [{ provider := balProvider 9, chainId := "31337" }] "31337"
        (wbGteParams 10)).map (fun br => br.rule (some "0xabc")) =
      .ok (.ok { name := "Wallet balance gte 10", success := false, error := none }) := by
  have h := walletBalance_gte_threshold_boundary 10 "0xabc" (by simp)
  constructor
  · have h1 := h.1
    norm_num at h1 ⊢
    exact h1
  · have h2 := h.2
    norm_num at h2 ⊢
    exact h2

/-! Claim C5: predicate totality (corrected). -/

/-- Counterexample to C5: the `walletBalance` predicate invoked with an
undefined address rejects (the guard sits before the try block) instead
of resolving to a failed RuleResult. -/
theorem walletBalance_predicate_rejects_missing_address :
    (walletBalance [{ provider := balProvider 5, chainId := "1" }] "1"
        (wbGteParams 1)).map (fun br => br.rule none) =
      .ok (.error "`address` is required") := rfl

/-- Behaviour of the `walletBalance` predicate with respect to the
address argument: total on any provided non-empty address, rejecting
on a missing or empty one (the guard precedes the try block). -/
theorem walletBalance_rule_behavior (nets : List Network) (c : String)
    (ps : Obj) (br : BuiltRule) (h : walletBalance nets c ps = .ok br) :
    br.definition.type = "walletBalance"
    ∧ (∀ s : String, ¬(s = "") → ∃ r, br.rule (some s) = .ok r)
    ∧ br.rule none = .error "`address` is required"
    ∧ br.rule (some "") = .error "`address` is required" := by
  simp only [walletBalance] at h
  split at h
  · exact absurd h (by simp)
  · split at h
    · exact absurd h (by simp)
    · injection h with h2
      subst h2
      refine ⟨rfl, ?_, rfl, rfl⟩
      intro s hs
      simp only [walletBalanceRuleFn]
      rw [if_neg hs]
      exact ⟨_, rfl⟩

/-- Same address behaviour for `erc20Balance`. -/
theorem erc20Balance_rule_behavior (nets : List Network) (c : String)
    (ps : Obj) (br : BuiltRule) (h : erc20Balance nets c ps = .ok br) :
    br.definition.type = "erc20Balance"
    ∧ (∀ s : String, ¬(s = "") → ∃ r, br.rule (some s) = .ok r)
    ∧ br.rule none = .error "`address` is required"
    ∧ br.rule (some "") = .error "`address` is required" := by
  simp only [erc20Balance] at h
  split at h
  · exact absurd h (by simp)
  · split at h
    · exact absurd h (by simp)
    · split at h
      · exact absurd h (by simp)
      · injection h with h2
        subst h2
        refine ⟨rfl, ?_, rfl, rfl⟩
        intro s hs
        simp only [erc20BalanceRuleFn]
        rw [if_neg hs]
        exact ⟨_, rfl⟩

/-- Same address behaviour for `numTransactions`. -/
theorem numTransactions_rule_behavior (nets : List Network) (c : String)
    (ps : Obj) (br : BuiltRule) (h : numTransactions nets c ps = .ok br) :
    br.definition.type = "numTransactions"
    ∧ (∀ s : String, ¬(s = "") → ∃ r, br.rule (some s) = .ok r)
    ∧ br.rule none = .error "`address` is required"
    ∧ br.rule (some "") = .error "`address` is required" := by
  simp only [numTransactions] at h
  split at h
  · exact absurd h (by simp)
  · split at h
    · exact absurd h (by simp)
    · injection h with h2
      subst h2
      refine ⟨rfl, ?_, rfl, rfl⟩
      intro s hs
      simp only [numTransactionsRuleFn]
      rw [if_neg hs]
      exact ⟨_, rfl⟩

/-- Same address behaviour for `hasNFT`. -/
theorem hasNFT_rule_behavior (nets : List Network) (c : String)
    (ps : Obj) (br : BuiltRule) (h : hasNFT nets c ps = .ok br) :
    br.definition.type = "hasNFT"
    ∧ (∀ s : String, ¬(s = "") → ∃ r, br.rule (some s) = .ok r)
    ∧ br.rule none = .error "`address` is required"
    ∧ br.rule (some "") = .error "`address` is required" := by
  simp only [hasNFT] at h
  split at h
  · exact absurd h (by simp)
  · injection h with h2
    subst h2
    refine ⟨rfl, ?_, rfl, rfl⟩
    intro s hs
    simp only [hasNFTRuleFn]
    rw [if_neg hs]
    exact ⟨_, rfl⟩

/-- Same address behaviour for `hasNFTTokenId`. -/
theorem hasNFTTokenId_rule_behavior (nets : List Network) (c : String)
    (ps : Obj) (br : BuiltRule) (h : hasNFTTokenId nets c ps = .ok br) :
    br.definition.type = "hasNFTTokenId"
    ∧ (∀ s : String, ¬(s = "") → ∃ r, br.rule (some s) = .ok r)
    ∧ br.rule none = .error "`address` is required"
    ∧ br.rule (some "") = .error "`address` is required" := by
  simp only [hasNFTTokenId] at h
  split at h
  · exact absurd h (by simp)
  · split at h
    · exact absurd h (by simp)
    · injection h with h2
      subst h2
      refine ⟨rfl, ?_, rfl, rfl⟩
      intro s hs
      simp only [hasNFTTokenIdRuleFn]
      rw [if_neg hs]
      exact ⟨_, rfl⟩

/-- Same address behaviour for `addressIsContract` (no factory-time
validation). -/
theorem addressIsContract_rule_behavior (nets : List Network) (c : String)
    (ps : Obj) (br : BuiltRule) (h : addressIsContract nets c ps = .ok br) :
    br.definition.type = "addressIsContract"
    ∧ (∀ s : String, ¬(s = "") → ∃ r, br.rule (some s) = .ok r)
    ∧ br.rule none = .error "`address` is required"
    ∧ br.rule (some "") = .error "`address` is required" := by
  injection h with h2
  subst h2
  refine ⟨rfl, ?_, rfl, rfl⟩
  intro s hs
  simp only [addressIsContractRuleFn]
  rw [if_neg hs]
  exact ⟨_, rfl⟩

/-- Same address behaviour for `addressIsEOA`. -/
theorem addressIsEOA_rule_behavior (nets : List Network) (c : String)
    (ps : Obj) (br : BuiltRule) (h : addressIsEOA nets c ps = .ok br) :
    br.definition.type = "addressIsEOA"
    ∧ (∀ s : String, ¬(s = "") → ∃ r, br.rule (some s) = .ok r)
    ∧ br.rule none = .error "`address` is required"
    ∧ br.rule (some "") = .error "`address` is required" := by
  injection h with h2
  subst h2
  refine ⟨rfl, ?_, rfl, rfl⟩
  intro s hs
  simp only [addressIsEOARuleFn]
  rw [if_neg hs]
  exact ⟨_, rfl⟩

/-- The `contractBalance` predicate ignores the address argument and
resolves on every input (whole body inside the try block). -/
theorem contractBalance_rule_total (nets : List Network) (c : String)
    (ps : Obj) (br : BuiltRule) (h : contractBalance nets c ps = .ok br) :
    br.definition.type = "contractBalance"
    ∧ ∀ a : Option String, ∃ r, br.rule a = .ok r := by
  simp only [contractBalance] at h
  split at h
  · exact absurd h (by simp)
  · split at h
    · exact absurd h (by simp)
    · split at h
      · exact absurd h (by simp)
      · injection h with h2
        subst h2
        exact ⟨rfl, fun a => ⟨_, rfl⟩⟩

/-- The `callContract` predicate has no address guard and resolves on
every input (whole body inside the try block). -/
theorem callContract_rule_total (nets : List Network) (c : String)
    (ps : Obj) (br : BuiltRule) (h : callContract nets c ps = .ok br) :
    br.definition.type = "callContract"
    ∧ ∀ a : Option String, ∃ r, br.rule a = .ok r := by
  simp only [callContract] at h
  split at h
  · exact absurd h (by simp)
  · split at h
    · exact absurd h (by simp)
    · split at h
      · exact absurd h (by simp)
      · injection h with h2
        subst h2
        exact ⟨rfl, fun a => ⟨_, rfl⟩⟩

/-- C5 as amended: for every rule built by any of the nine factories,
the predicate resolves to a RuleResult on every provided non-empty
address — every failure inside the try block is converted into a
`RuleResult`.  The `contractBalance` and `callContract` predicates
never reject at all (their whole bodies sit in the try block); the
seven address-requiring kinds reject with "`address` is required" on
an undefined/null or empty-string address, because that guard precedes
the try block. -/
theorem factory_predicate_total_on_provided_address (nets : List Network)
    (t c : String) (ps : Obj) (br : BuiltRule)
    (h : ruleFactoryApply t nets c ps = some (.ok br)) :
    (∀ s : String, ¬(s = "") → ∃ r, br.rule (some s) = .ok r)
    ∧ ((br.definition.type = "contractBalance"
        ∨ br.definition.type = "callContract") →
        ∀ a : Option String, ∃ r, br.rule a = .ok r)
    ∧ (¬(br.definition.type = "contractBalance"
        ∨ br.definition.type = "callContract") →
        br.rule none = .error "`address` is required"
        ∧ br.rule (some "") = .error "`address` is required") := by
  simp only [ruleFactoryApply] at h
  split at h
  · injection h with h1
    obtain ⟨hty, hsome, hnone, hempty⟩ := walletBalance_rule_behavior nets c ps br h1
    refine ⟨hsome, ?_, fun _ => ⟨hnone, hempty⟩⟩
    intro hdisj
    rw [hty] at hdisj
    rcases hdisj with hx | hx <;> simp at hx
  · injection h with h1
    obtain ⟨hty, htot⟩ := contractBalance_rule_total nets c ps br h1
    exact ⟨fun s _ => htot (some s), fun _ => htot,
      fun hneg => absurd (Or.inl hty) hneg⟩
  · injection h with h1
    obtain ⟨hty, hsome, hnone, hempty⟩ := erc20Balance_rule_behavior nets c ps br h1
    refine ⟨hsome, ?_, fun _ => ⟨hnone, hempty⟩⟩
    intro hdisj
    rw [hty] at hdisj
    rcases hdisj with hx | hx <;> simp at hx
  · injection h with h1
    obtain ⟨hty, hsome, hnone, hempty⟩ := numTransactions_rule_behavior nets c ps br h1
    refine ⟨hsome, ?_, fun _ => ⟨hnone, hempty⟩⟩
    intro hdisj
    rw [hty] at hdisj
    rcases hdisj with hx | hx <;> simp at hx
  · injection h with h1
    obtain ⟨hty, hsome, hnone, hempty⟩ := hasNFT_rule_behavior nets c ps br h1
    refine ⟨hsome, ?_, fun _ => ⟨hnone, hempty⟩⟩
    intro hdisj
    rw [hty] at hdisj
    rcases hdisj with hx | hx <;> simp at hx
  · injection h with h1
    obtain ⟨hty, hsome, hnone, hempty⟩ := hasNFTTokenId_rule_behavior nets c ps br h1
    refine ⟨hsome, ?_, fun _ => ⟨hnone, hempty⟩⟩
    intro hdisj
    rw [hty] at hdisj
    rcases hdisj with hx | hx <;> simp at hx
  · injection h with h1
    obtain ⟨hty, hsome, hnone, hempty⟩ := addressIsContract_rule_behavior nets c ps br h1
    refine ⟨hsome, ?_, fun _ => ⟨hnone, hempty⟩⟩
    intro hdisj
    rw [hty] at hdisj
    rcases hdisj with hx | hx <;> simp at hx
  · injection h with h1
    obtain ⟨hty, hsome, hnone, hempty⟩ := addressIsEOA_rule_behavior nets c ps br h1
    refine ⟨hsome, ?_, fun _ => ⟨hnone, hempty⟩⟩
    intro hdisj
    rw [hty] at hdisj
    rcases hdisj with hx | hx <;> simp at hx
  · injection h with h1
    obtain ⟨hty, htot⟩ := callContract_rule_total nets c ps br h1
    exact ⟨fun s _ => htot (some s), fun _ => htot,
      fun hneg => absurd (Or.inr hty) hneg⟩
  · exact absurd h (by simp)

/-- The concrete `walletBalance` rule used by the C5 witness. -/
def wbBuilt : BuiltRule :=
  match walletBalance [{ provider := balProvider 5, chainId := "1" }] "1"
      (wbGteParams 1) with
  | .ok br => br
  | .error _ => passingRule

/-- The concrete `contractBalance` rule used by the C5 witness. -/
def cbBuilt : BuiltRule :=
  match contractBalance [{ provider := balProvider 5, chainId := "1" }] "1"
      [("contractAddress", .prim (.str "0xc0de")),
       ("value", .prim (.big 1)),
       ("compareType", .prim (.str "gte"))] with
  | .ok br => br
  | .error _ => passingRule

/-- Witness for the amended C5: the concrete `walletBalance` rule
resolves on a real address and rejects on a missing or empty one,
while the concrete `contractBalance` rule resolves even without an
address. -/
theorem factory_predicate_total_witness :
    (∃ r, wbBuilt.rule (some "0xabc") = .ok r)
    ∧ wbBuilt.rule none = .error "`address` is required"
    ∧ wbBuilt.rule (some "") = .error "`address` is required"
    ∧ (∃ r, cbBuilt.rule none = .ok r)
    ∧ (∃ r, cbBuilt.rule (some "") = .ok r) :=
  have hwb := factory_predicate_total_on_provided_address
    [{ provider := balProvider 5, chainId := "1" }] "walletBalance" "1"
    (wbGteParams 1) wbBuilt rfl
  have hcb := factory_predicate_total_on_provided_address
    [{ provider := balProvider 5, chainId := "1" }] "contractBalance" "1"
    [("contractAddress", .prim (.str "0xc0de")),
     ("value", .prim (.big 1)),
     ("compareType", .prim (.str "gte"))] cbBuilt rfl
  ⟨hwb.1 "0xabc" (by simp),
   (hwb.2.2 (by decide)).1,
   (hwb.2.2 (by decide)).2,
   hcb.2.1 (Or.inl rfl) none,
   hcb.2.1 (Or.inl rfl) (some "")⟩

/-- Unfolding `createRulesFromDefinitions` on the empty list. -/
theorem createRulesFromDefinitions_nil (networks : List Network) :
    createRulesFromDefinitions networks [] = .ok [] := rfl

/-- Unfolding `createRulesFromDefinitions` on a cons cell. -/
theorem createRulesFromDefinitions_cons (networks : List Network)
    (d : RuleDefinition) (ds : List RuleDefinition) :
    createRulesFromDefinitions networks (d :: ds) =
      (createRuleFromDefinition networks d) >>= fun r =>
        (createRulesFromDefinitions networks ds) >>= fun rest =>
          pure (r :: rest) := by
  show (d :: ds).mapM (createRuleFromDefinition networks) = _
  rw [List.mapM_cons]
  simp [bind_pure_comp]
  rfl

/-! Claim C10: reconstructed rules compare a bigint against a string. -/

/-- A raw JSON `walletBalance` definition as produced by export:
`value` is a decimal string. -/
def wbStringDef (c s ct : String) : RuleDefinition :=
  { type := "walletBalance", chainId := c,
    params := [("value", .prim (.str s)), ("compareType", .prim (.str ct))] }

/-- C10: a `walletBalance` rule reconstructed through
`createRulesFromDefinitions` carries its `value` as a string; with
`compareType = "eq"` the predicate compares the observed bigint to that
string with strict equality and is therefore false for every observed
balance (even one numerically equal), while the four relational
comparators coerce the string and behave numerically.  The final
conjunct states the same eq behaviour of the shared comparison switch,
which contractBalance / erc20Balance / numTransactions reuse verbatim. -/
theorem reconstructed_eq_is_always_false (s : String) (w bal : Int)
    (addr : String) (hs : ¬(addr = "")) (hw : jsStringToBigInt s = some w) :
    (createRulesFromDefinitions [{ provider := balProvider bal, chainId := "31337" }]
        [wbStringDef "31337" s "eq"]).map
        (fun rs => rs.map (fun br => br.rule (some addr))) =
      .ok [.ok { name := "Wallet balance eq " ++ s, success := false, error := none }]
    ∧ (createRulesFromDefinitions [{ provider := balProvider bal, chainId := "31337" }]
        [wbStringDef "31337" s "gt"]).map
        (fun rs => rs.map (fun br => br.rule (some addr))) =
      .ok [.ok { name := "Wallet balance gt " ++ s,
                 success := decide (bal > w), error := none }]
    ∧ (createRulesFromDefinitions [{ provider := balProvider bal, chainId := "31337" }]
        [wbStringDef "31337" s "gte"]).map
        (fun rs => rs.map (fun br => br.rule (some addr))) =
      .ok [.ok { name := "Wallet balance gte " ++ s,
                 success := decide (bal ≥ w), error := none }]
    ∧ (createRulesFromDefinitions [{ provider := balProvider bal, chainId := "31337" }]
        [wbStringDef "31337" s "lt"]).map
        (fun rs => rs.map (fun br => br.rule (some addr))) =
      .ok [.ok { name := "Wallet balance lt " ++ s,
                 success := decide (bal < w), error := none }]
    ∧ (createRulesFromDefinitions [{ provider := balProvider bal, chainId := "31337" }]
        [wbStringDef "31337" s "lte"]).map
        (fun rs => rs.map (fun br => br.rule (some addr))) =
      .ok [.ok { name := "Wallet balance lte " ++ s,
                 success := decide (bal ≤ w), error := none }]
    ∧ ∀ (b : Int) (s2 : String),
        compareSwitch (.prim (.str "eq")) b (.prim (.str s2)) = .ok false := by
  refine ⟨?_, ?_, ?_, ?_, ?_, fun b s2 => rfl⟩ <;>
    simp [createRulesFromDefinitions_cons, createRulesFromDefinitions_nil,
      createRuleFromDefinition, wbStringDef,
      ruleFactoryApply, walletBalance, getField, List.lookup, isUndefOrNull,
      validCompareType, walletBalanceRuleFn, hs, providerOrThrow,
      getProviderByChainId, balProvider, runCatch, compareSwitch, jsStrictEqBig,
      jsRel, hw, jsToString]

/-- Witness for C10 at `s = "5"`, observed balance 5: strict equality
still fails although the values agree numerically, while `gte` holds. -/
theorem reconstructed_eq_is_always_false_witness :
    (createRulesFromDefinitions [{ provider := balProvider 5, chainId := "31337" }]
        [wbStringDef "31337" "5" "eq"]).map
        (fun rs => rs.map (fun br => br.rule (some "0xabc"))) =
      .ok [.ok { name := "Wallet balance eq 5", success := false, error := none }]
    ∧ (createRulesFromDefinitions [{ provider := balProvider 5, chainId := "31337" }]
        [wbStringDef "31337" "5" "gte"]).map
        (fun rs => rs.map (fun br => br.rule (some "0xabc"))) =
      .ok [.ok { name := "Wallet balance gte 5", success := true, error := none }] := by
  have h := reconstructed_eq_is_always_false "5" 5 5 "0xabc" (by simp) (by decide)
  refine ⟨?_, ?_⟩
  · have h1 := h.1
    simpa using h1
  · have h2 := h.2.2.1
    simpa using h2

/-- A string-valued field is neither undefined nor null. -/
@[simp] theorem isUndefOrNull_str (s : String) :
    isUndefOrNull (.prim (.str s)) = false := rfl

/-- String conversion is the identity on strings. -/
@[simp] theorem jsToString_str (s : String) :
    jsToString (.prim (.str s)) = s := rfl

/-! Claim C2: the export/import round trip.

Each factory lemma states: when the factory accepts params and yields a
built rule, re-running the same factory on the rule's exported
definition params succeeds and reproduces the very same definition. -/

/-- Round trip through the `walletBalance` factory. -/
theorem walletBalance_reimport (nets nets2 : List Network) (c : String)
    (ps : Obj) (br : BuiltRule) (h : walletBalance nets c ps = .ok br) :
    br.definition.type = "walletBalance" ∧ br.definition.chainId = c ∧
    (walletBalance nets2 c br.definition.params).map (fun b => b.definition) =
      .ok br.definition := by
  simp only [walletBalance] at h
  split at h
  · exact absurd h (by simp)
  · split at h
    · exact absurd h (by simp)
    · rename_i hv hct
      injection h with h2
      subst h2
      simp [getField] at hct
      refine ⟨rfl, rfl, ?_⟩
      simp [walletBalance, getField, List.lookup, hct]

/-- Round trip through the `contractBalance` factory. -/
theorem contractBalance_reimport (nets nets2 : List Network) (c : String)
    (ps : Obj) (br : BuiltRule) (h : contractBalance nets c ps = .ok br) :
    br.definition.type = "contractBalance" ∧ br.definition.chainId = c ∧
    (contractBalance nets2 c br.definition.params).map (fun b => b.definition) =
      .ok br.definition := by
  simp only [contractBalance] at h
  split at h
  · exact absurd h (by simp)
  · split at h
    · exact absurd h (by simp)
    · split at h
      · exact absurd h (by simp)
      · rename_i hca hv hct
        injection h with h2
        subst h2
        simp [getField] at hca hct
        refine ⟨rfl, rfl, ?_⟩
        simp [contractBalance, getField, List.lookup, hca, hct]

/-- Round trip through the `erc20Balance` factory. -/
theorem erc20Balance_reimport (nets nets2 : List Network) (c : String)
    (ps : Obj) (br : BuiltRule) (h : erc20Balance nets c ps = .ok br) :
    br.definition.type = "erc20Balance" ∧ br.definition.chainId = c ∧
    (erc20Balance nets2 c br.definition.params).map (fun b => b.definition) =
      .ok br.definition := by
  simp only [erc20Balance] at h
  split at h
  · exact absurd h (by simp)
  · split at h
    · exact absurd h (by simp)
    · split at h
      · exact absurd h (by simp)
      · rename_i hta hv hct
        injection h with h2
        subst h2
        simp [getField] at hta hct
        refine ⟨rfl, rfl, ?_⟩
        simp [erc20Balance, getField, List.lookup, hta, hct]

/-- Round trip through the `numTransactions` factory. -/
theorem numTransactions_reimport (nets nets2 : List Network) (c : String)
    (ps : Obj) (br : BuiltRule) (h : numTransactions nets c ps = .ok br) :
    br.definition.type = "numTransactions" ∧ br.definition.chainId = c ∧
    (numTransactions nets2 c br.definition.params).map (fun b => b.definition) =
      .ok br.definition := by
  simp only [numTransactions] at h
  split at h
  · exact absurd h (by simp)
  · split at h
    · exact absurd h (by simp)
    · rename_i hv hct
      injection h with h2
      subst h2
      simp [getField] at hct
      refine ⟨rfl, rfl, ?_⟩
      simp [numTransactions, getField, List.lookup, hct]

/-- Round trip through the `hasNFT` factory. -/
theorem hasNFT_reimport (nets nets2 : List Network) (c : String)
    (ps : Obj) (br : BuiltRule) (h : hasNFT nets c ps = .ok br) :
    br.definition.type = "hasNFT" ∧ br.definition.chainId = c ∧
    (hasNFT nets2 c br.definition.params).map (fun b => b.definition) =
      .ok br.definition := by
  simp only [hasNFT] at h
  split at h
  · exact absurd h (by simp)
  · rename_i hna
    injection h with h2
    subst h2
    simp [getField] at hna
    refine ⟨rfl, rfl, ?_⟩
    simp [hasNFT, getField, List.lookup, hna]

/-- Round trip through the `hasNFTTokenId` factory. -/
theorem hasNFTTokenId_reimport (nets nets2 : List Network) (c : String)
    (ps : Obj) (br : BuiltRule) (h : hasNFTTokenId nets c ps = .ok br) :
    br.definition.type = "hasNFTTokenId" ∧ br.definition.chainId = c ∧
    (hasNFTTokenId nets2 c br.definition.params).map (fun b => b.definition) =
      .ok br.definition := by
  simp only [hasNFTTokenId] at h
  split at h
  · exact absurd h (by simp)
  · split at h
    · exact absurd h (by simp)
    · rename_i hna hti
      injection h with h2
      subst h2
      simp [getField] at hna
      refine ⟨rfl, rfl, ?_⟩
      simp [hasNFTTokenId, getField, List.lookup, hna]

/-- Round trip through the `addressIsContract` factory (params pass
through unchanged). -/
theorem addressIsContract_reimport (nets nets2 : List Network) (c : String)
    (ps : Obj) (br : BuiltRule) (h : addressIsContract nets c ps = .ok br) :
    br.definition.type = "addressIsContract" ∧ br.definition.chainId = c ∧
    (addressIsContract nets2 c br.definition.params).map (fun b => b.definition) =
      .ok br.definition := by
  injection h with h2
  subst h2
  exact ⟨rfl, rfl, rfl⟩

/-- Round trip through the `addressIsEOA` factory. -/
theorem addressIsEOA_reimport (nets nets2 : List Network) (c : String)
    (ps : Obj) (br : BuiltRule) (h : addressIsEOA nets c ps = .ok br) :
    br.definition.type = "addressIsEOA" ∧ br.definition.chainId = c ∧
    (addressIsEOA nets2 c br.definition.params).map (fun b => b.definition) =
      .ok br.definition := by
  injection h with h2
  subst h2
  exact ⟨rfl, rfl, rfl⟩

/-- Round trip through the `callContract` factory: the exported
definition already omits `compareType`, so re-importing (which does not
validate `compareType`) reproduces it exactly. -/
theorem callContract_reimport (nets nets2 : List Network) (c : String)
    (ps : Obj) (br : BuiltRule) (h : callContract nets c ps = .ok br) :
    br.definition.type = "callContract" ∧ br.definition.chainId = c ∧
    (callContract nets2 c br.definition.params).map (fun b => b.definition) =
      .ok br.definition := by
  simp only [callContract] at h
  split at h
  · exact absurd h (by simp)
  · split at h
    · exact absurd h (by simp)
    · split at h
      · exact absurd h (by simp)
      · rename_i hca hfn habi
        injection h with h2
        subst h2
        simp [getField] at hca hfn habi
        refine ⟨rfl, rfl, ?_⟩
        simp [callContract, getField, List.lookup, hca, hfn, habi.1, habi.2]

/-- Finishing step shared by all nine dispatch cases: once the factory
output is known to reproduce the definition, so does
`createRuleFromDefinition`. -/
theorem finish_roundtrip (nets2 : List Network) (br : BuiltRule)
    (x : Except String BuiltRule)
    (hdisp : ruleFactoryApply br.definition.type nets2 br.definition.chainId
        br.definition.params = some x)
    (hprov : (getProviderByChainId nets2 br.definition.chainId).isSome = true)
    (hx : x.map (fun b => b.definition) = .ok br.definition) :
    (createRuleFromDefinition nets2 br.definition).map (fun b => b.definition) =
      .ok br.definition := by
  rcases hore : getProviderByChainId nets2 br.definition.chainId with _ | p
  · rw [hore] at hprov
    simp at hprov
  · simp only [createRuleFromDefinition, hore, hdisp, Option.isNone_some,
      Bool.false_eq_true, if_false]
    exact hx

/-- Dispatch: a rule produced by any of the nine serializable factories
re-imports through `createRuleFromDefinition` to an identical
definition, provided the target registry resolves its chain id. -/
theorem createRuleFromDefinition_roundtrip (nets nets2 : List Network)
    (t c : String) (ps : Obj) (br : BuiltRule)
    (h : ruleFactoryApply t nets c ps = some (.ok br))
    (hprov : (getProviderByChainId nets2 br.definition.chainId).isSome = true) :
    (createRuleFromDefinition nets2 br.definition).map (fun b => b.definition) =
      .ok br.definition := by
  simp only [ruleFactoryApply] at h
  split at h
  · injection h with h1
    obtain ⟨hty, hch, hrt⟩ := walletBalance_reimport nets nets2 c ps br h1
    refine finish_roundtrip nets2 br _ ?_ hprov hrt
    rw [hty, hch]
    rfl
  · injection h with h1
    obtain ⟨hty, hch, hrt⟩ := contractBalance_reimport nets nets2 c ps br h1
    refine finish_roundtrip nets2 br _ ?_ hprov hrt
    rw [hty, hch]
    rfl
  · injection h with h1
    obtain ⟨hty, hch, hrt⟩ := erc20Balance_reimport nets nets2 c ps br h1
    refine finish_roundtrip nets2 br _ ?_ hprov hrt
    rw [hty, hch]
    rfl
  · injection h with h1
    obtain ⟨hty, hch, hrt⟩ := numTransactions_reimport nets nets2 c ps br h1
    refine finish_roundtrip nets2 br _ ?_ hprov hrt
    rw [hty, hch]
    rfl
  · injection h with h1
    obtain ⟨hty, hch, hrt⟩ := hasNFT_reimport nets nets2 c ps br h1
    refine finish_roundtrip nets2 br _ ?_ hprov hrt
    rw [hty, hch]
    rfl
  · injection h with h1
    obtain ⟨hty, hch, hrt⟩ := hasNFTTokenId_reimport nets nets2 c ps br h1
    refine finish_roundtrip nets2 br _ ?_ hprov hrt
    rw [hty, hch]
    rfl
  · injection h with h1
    obtain ⟨hty, hch, hrt⟩ := addressIsContract_reimport nets nets2 c ps br h1
    refine finish_roundtrip nets2 br _ ?_ hprov hrt
    rw [hty, hch]
    rfl
  · injection h with h1
    obtain ⟨hty, hch, hrt⟩ := addressIsEOA_reimport nets nets2 c ps br h1
    refine finish_roundtrip nets2 br _ ?_ hprov hrt
    rw [hty, hch]
    rfl
  · injection h with h1
    obtain ⟨hty, hch, hrt⟩ := callContract_reimport nets nets2 c ps br h1
    refine finish_roundtrip nets2 br _ ?_ hprov hrt
    rw [hty, hch]
    rfl
  · exact absurd h (by simp)

/-- List version: every factory-built rule set re-imports from its
exported definitions to rules carrying identical definitions. -/
theorem createRulesFromDefinitions_roundtrip (nets2 : List Network) :
    ∀ rules : List BuiltRule,
      (∀ br ∈ rules, ∃ t nets c ps,
        ruleFactoryApply t nets c ps = some (.ok br)) →
      (∀ br ∈ rules,
        (getProviderByChainId nets2 br.definition.chainId).isSome = true) →
      (createRulesFromDefinitions nets2
          (rules.map (fun br => br.definition))).map
        (fun rs => rs.map (fun b => b.definition)) =
      .ok (rules.map (fun br => br.definition)) := by
  intro rules
  induction rules with
  | nil => exact fun _ _ => rfl
  | cons br rest ih =>
    intro hF hC
    rcases hF br (List.mem_cons_self br rest) with ⟨t, nets, c, ps, hfac⟩
    have h1 := createRuleFromDefinition_roundtrip nets nets2 t c ps br hfac
      (hC br (List.mem_cons_self br rest))
    have h2 := ih (fun x hx => hF x (List.mem_cons_of_mem _ hx))
      (fun x hx => hC x (List.mem_cons_of_mem _ hx))
    rcases hcr : createRuleFromDefinition nets2 br.definition with m | br2
    · rw [hcr] at h1
      exact absurd h1 (by simp)
    · rw [hcr] at h1
      simp only [except_map_ok, Except.ok.injEq] at h1
      rcases hrest : createRulesFromDefinitions nets2
          (rest.map (fun b => b.definition)) with m | rest2
      · rw [hrest] at h2
        exact absurd h2 (by simp)
      · rw [hrest] at h2
        simp only [except_map_ok, Except.ok.injEq] at h2
        simp [createRulesFromDefinitions_cons, hcr, hrest, h1, h2]

/-- C2: for every engine whose rules were built by the nine serializable
factories (callContract included) and whose chain ids the registry
resolves, importing the exported definitions via
`createRulesFromDefinitions` succeeds and the resulting rules export
definitions deep-equal to the original export. -/
theorem export_import_roundtrip (e : EVMRuleEngine)
    (hF : ∀ br ∈ e.rules, ∃ t nets c ps,
      ruleFactoryApply t nets c ps = some (.ok br))
    (hC : ∀ br ∈ e.rules,
      (getProviderByChainId e.networks br.definition.chainId).isSome = true) :
    ∃ rules2, createRulesFromDefinitions e.networks (getRuleDefinitions e) =
        .ok rules2
      ∧ rules2.map (fun br => br.definition) = getRuleDefinitions e := by
  have hgd : getRuleDefinitions e = e.rules.map (fun br => br.definition) := rfl
  rw [hgd]
  have h := createRulesFromDefinitions_roundtrip e.networks e.rules hF hC
  rcases hcr : createRulesFromDefinitions e.networks
      (e.rules.map (fun br => br.definition)) with m | rules2
  · rw [hcr] at h
    exact absurd h (by simp)
  · rw [hcr] at h
    simp only [except_map_ok, Except.ok.injEq] at h
    exact ⟨rules2, hcr, h⟩

/-- Params of the concrete `callContract` rule used by the C2 witness. -/
def ccParams : Obj :=
  [("contractAddress", .prim (.str "0xcafe")),
   ("functionName", .prim (.str "isWhitelisted")),
   ("abi", .arr [.str "function isWhitelisted(address) view returns (bool)"]),
   ("requiredResult", .prim (.boolv true)),
   ("compareType", .prim (.str "eq"))]

/-- The concrete `callContract` rule used by the C2 witness. -/
def ccBuilt : BuiltRule :=
  match callContract [{ provider := balProvider 5, chainId := "1" }] "1" ccParams with
  | .ok br => br
  | .error _ => passingRule

/-- A two-rule factory-built engine (walletBalance and callContract). -/
def rtEngine : EVMRuleEngine :=
  { networks := [{ provider := balProvider 0, chainId := "1" }]
    rules := [wbBuilt, ccBuilt] }

/-- Witness for C2: the concrete engine's exported definitions re-import
and re-export unchanged. -/
theorem export_import_roundtrip_witness :
    ∃ rules2, createRulesFromDefinitions rtEngine.networks
        (getRuleDefinitions rtEngine) = .ok rules2
      ∧ rules2.map (fun br => br.definition) = getRuleDefinitions rtEngine := by
  apply export_import_roundtrip rtEngine
  · intro br hbr
    rcases List.mem_cons.mp hbr with rfl | hbr2
    · exact ⟨"walletBalance", [{ provider := balProvider 5, chainId := "1" }],
        "1", wbGteParams 1, rfl⟩
    · rcases List.mem_singleton.mp hbr2 with rfl
      exact ⟨"callContract", [{ provider := balProvider 5, chainId := "1" }],
        "1", ccParams, rfl⟩
  · intro br hbr
    rcases List.mem_cons.mp hbr with rfl | hbr2
    · rfl
    · rcases List.mem_singleton.mp hbr2 with rfl
      rfl

end EvmRuleEngine
